import Mathlib

set_option autoImplicit false

namespace MAPS

/-- Status enumeration for each pipeline stage
(`src/models/data_models.py`, class `StageStatus`). -/
inductive StageStatus where
  | pending
  | inProgress
  | completed
  | failed
  | skipped
deriving DecidableEq

/-- Agent kinds (`src/models/data_models.py`, class `AgentType`). -/
inductive AgentType where
  | descriptionGenerator
  | imageGenerator
  | ecommerceIntegrator
  | orchestrator
deriving DecidableEq

/-- Serialized string value of each agent type (the Python enum values). -/
def AgentType.value : AgentType → String
  | .descriptionGenerator => "description_generator"
  | .imageGenerator => "image_generator"
  | .ecommerceIntegrator => "ecommerce_integrator"
  | .orchestrator => "orchestrator"

/-- Python `Dict[str, Any]` payloads, modelled as association lists with
unique keys, parametric in the value type (no claim inspects the values
themselves). -/
abbrev Dict (V : Type) : Type := List (String × V)

/-- Setting one key in a Python dict: replace the value in place if the
key is present, otherwise append the binding at the end. -/
def dictSet {V : Type} (d : Dict V) (k : String) (v : V) : Dict V :=
  if d.any (fun p => p.1 == k) then
    d.map (fun p => if p.1 == k then (k, v) else p)
  else
    d ++ [(k, v)]

/-- Python shallow dict merge, as in the expressions
`stage2_input = {**pipeline_input, **stage1_data}` of
`src/orchestrator.py`: every binding of `b` is set into `a`, in order. -/
def dictMerge {V : Type} (a b : Dict V) : Dict V :=
  b.foldl (fun acc p => dictSet acc p.1 p.2) a

/-- Configuration of a single agent
(`src/models/data_models.py`, class `AgentConfig`). The free-form
`config` options map is omitted: `BaseAgent` itself never reads it.
`maxRetries` and `timeout` are integers, as in the source, so that the
negative-retries check of `_validate_config` is statable. -/
structure AgentConfig where
  agentType : AgentType
  enabled : Bool
  maxRetries : Int
  timeout : Int
deriving DecidableEq

/-- Class tags for the exception hierarchy of `src/agents/base_agent.py`
(`AgentException` and its timeout/validation/configuration subclasses). -/
inductive ErrKind where
  | agentError
  | timeoutError
  | validationError
  | configurationError
deriving DecidableEq

/-- An exception value, reduced to its class tag and the message that
`str(exception)` yields (the only part the framework ever reads). -/
structure AgentError where
  kind : ErrKind
  message : String
deriving DecidableEq

/-- Result record of one agent invocation
(`src/models/data_models.py`, class `AgentResult`). The wall-clock
`timestamp` and the `metadata` bookkeeping map are omitted; execution
times are abstract numbers supplied by the caller, because wall-clock
measurement is outside the embedding. `retryCount` is an integer because
the failure path of `BaseAgent.execute` returns `retry_count - 1`. -/
structure AgentResult (V : Type) where
  agentType : AgentType
  stage : Nat
  status : StageStatus
  data : Dict V
  errorMessage : Option String
  executionTime : Option Nat
  retryCount : Int
deriving DecidableEq

/-- Possible behaviours of one call to `_validate_input` or
`_validate_output`: return a boolean, raise an `AgentException` (of any
subclass) whose `str` is `msg`, or raise any other exception whose `str`
is `msg`. -/
inductive ValBehavior where
  | retBool (b : Bool)
  | raiseAgentExc (msg : String)
  | raiseOtherExc (msg : String)
deriving DecidableEq

/-- Possible behaviours of one call to `_execute_core` under
`asyncio.wait_for`: return an output payload, raise an `AgentException`,
raise any other exception, or exceed the configured timeout. -/
inductive CoreBehavior (V : Type) where
  | ret (out : Dict V)
  | raiseAgentExc (msg : String)
  | raiseOtherExc (msg : String)
  | timesOut
deriving DecidableEq

/-- Behaviour of one attempt (one iteration of the retry loop): what
input validation, the core operation and output validation each do. -/
structure AttemptBehavior (V : Type) where
  vin : ValBehavior
  core : CoreBehavior V
  vout : ValBehavior
deriving DecidableEq

/-- How many times each abstract operation ran during one attempt. -/
structure AttemptCounts where
  inputValidations : Nat
  coreExecutions : Nat
  outputValidations : Nat
deriving DecidableEq

/-- Message of the `AgentTimeoutException` built in `BaseAgent.execute`
when `asyncio.wait_for` raises. -/
def timeoutMessage (cfg : AgentConfig) : String :=
  "Agent execution timed out after " ++ toString cfg.timeout ++ "s"

/-- One iteration of the `try` block in `BaseAgent.execute`
(`src/agents/base_agent.py` lines 177-231): validate input, run the core
under the timeout, validate output. Any failure is caught by the three
`except` clauses and becomes the attempt's error, exactly as the code
stores it in `last_exception`: a validator returning `False` raises an
`AgentValidationException` with a fixed message, a deadline breach
becomes an `AgentTimeoutException`, an `AgentException` is kept as
raised, and any other exception is wrapped with an `Unexpected error:`
prefix. Also reports how many of the three operations were invoked. -/
def runAttempt {V : Type} (cfg : AgentConfig) (b : AttemptBehavior V) :
    Except AgentError (Dict V) × AttemptCounts :=
  match b.vin with
  | .raiseAgentExc m => (Except.error ⟨ErrKind.agentError, m⟩, ⟨1, 0, 0⟩)
  | .raiseOtherExc m =>
      (Except.error ⟨ErrKind.agentError, "Unexpected error: " ++ m⟩, ⟨1, 0, 0⟩)
  | .retBool false =>
      (Except.error ⟨ErrKind.validationError, "Input validation failed"⟩, ⟨1, 0, 0⟩)
  | .retBool true =>
    match b.core with
    | .timesOut => (Except.error ⟨ErrKind.timeoutError, timeoutMessage cfg⟩, ⟨1, 1, 0⟩)
    | .raiseAgentExc m => (Except.error ⟨ErrKind.agentError, m⟩, ⟨1, 1, 0⟩)
    | .raiseOtherExc m =>
        (Except.error ⟨ErrKind.agentError, "Unexpected error: " ++ m⟩, ⟨1, 1, 0⟩)
    | .ret out =>
      match b.vout with
      | .raiseAgentExc m => (Except.error ⟨ErrKind.agentError, m⟩, ⟨1, 1, 1⟩)
      | .raiseOtherExc m =>
          (Except.error ⟨ErrKind.agentError, "Unexpected error: " ++ m⟩, ⟨1, 1, 1⟩)
      | .retBool false =>
          (Except.error ⟨ErrKind.validationError, "Output validation failed"⟩, ⟨1, 1, 1⟩)
      | .retBool true => (Except.ok out, ⟨1, 1, 1⟩)

/-- Observable side effects of one `BaseAgent.execute` call: number of
attempts (iterations of the retry loop), invocations of the three
abstract operations, and the chronological list of backoff sleeps in
seconds. -/
structure ExecTrace where
  attempts : Nat
  inputValidations : Nat
  coreExecutions : Nat
  outputValidations : Nat
  sleeps : List Nat
deriving DecidableEq

/-- Trace of a call that performed no attempt at all. -/
def emptyTrace : ExecTrace := ⟨0, 0, 0, 0, []⟩

/-- Prepend one attempt (and its optional backoff sleep) to a trace. -/
def traceCons (c : AttemptCounts) (w : Option Nat) (t : ExecTrace) : ExecTrace :=
  { attempts := t.attempts + 1
    inputValidations := c.inputValidations + t.inputValidations
    coreExecutions := c.coreExecutions + t.coreExecutions
    outputValidations := c.outputValidations + t.outputValidations
    sleeps := match w with | none => t.sleeps | some s => s :: t.sleeps }

/-- Python `str(last_exception)` where `last_exception` is an optional
exception (`str(None)` is the string "None"; that case is unreachable
whenever the retry loop runs at least once). -/
def strOfLastError : Option AgentError → String
  | none => "None"
  | some e => e.message

/-- Stage number of each agent type: the `_get_stage_number` overrides of
the concrete agent classes and `ProductListingOrchestrator._get_stage_number`
agree on this mapping (description 1, image 2, e-commerce 3, default 0). -/
def stageNumberOf : AgentType → Nat
  | .descriptionGenerator => 1
  | .imageGenerator => 2
  | .ecommerceIntegrator => 3
  | .orchestrator => 0

/-- Failed result returned after the retry loop exits
(`src/agents/base_agent.py` lines 243-259): at that point `retry_count`
has been incremented past `max_retries`, so the recorded retry count is
one less than the running counter `rc`. -/
def mkFailedResult {V : Type} (cfg : AgentConfig) (elapsed : Nat) (rc : Nat)
    (lastErr : Option AgentError) : AgentResult V :=
  { agentType := cfg.agentType
    stage := stageNumberOf cfg.agentType
    status := StageStatus.failed
    data := []
    errorMessage := some (strOfLastError lastErr)
    executionTime := some elapsed
    retryCount := (rc : Int) - 1 }

/-- Completed result returned from inside the retry loop
(`src/agents/base_agent.py` lines 206-214). -/
def mkCompletedResult {V : Type} (cfg : AgentConfig) (elapsed : Nat) (rc : Nat)
    (out : Dict V) : AgentResult V :=
  { agentType := cfg.agentType
    stage := stageNumberOf cfg.agentType
    status := StageStatus.completed
    data := out
    errorMessage := none
    executionTime := some elapsed
    retryCount := (rc : Int) }

/-- The retry loop of `BaseAgent.execute`
(`while retry_count <= self.config.max_retries`, lines 176-241). `fuel`
is the number of loop iterations still allowed, kept equal to
`(max_retries + 1 - retry_count).toNat` by every caller; the zero-fuel
case is exactly the loop condition failing, which falls through to the
Failed return after the loop. After a failed attempt the code increments
`retry_count` and sleeps `min(2 ** retry_count, 30)` seconds, but only
when another iteration will follow (`if retry_count <= max_retries`). -/
def agentLoop {V : Type} (cfg : AgentConfig) (beh : Nat → AttemptBehavior V)
    (elapsed : Nat) : Nat → Nat → Option AgentError → AgentResult V × ExecTrace
  | 0, rc, lastErr => (mkFailedResult cfg elapsed rc lastErr, emptyTrace)
  | fuel + 1, rc, _ =>
    match runAttempt cfg (beh rc) with
    | (Except.ok out, c) => (mkCompletedResult cfg elapsed rc out, traceCons c none emptyTrace)
    | (Except.error e, c) =>
      let r := agentLoop cfg beh elapsed fuel (rc + 1) (some e)
      if fuel = 0 then
        (r.1, traceCons c none r.2)
      else
        (r.1, traceCons c (some (min (2 ^ (rc + 1)) 30)) r.2)

/-- An instantiated agent: its configuration together with the abstract
behaviour of its three overridden operations (a function of the input
payload and the attempt number, covering arbitrary results, raised
exceptions and timeouts) and the abstract elapsed time its execution
records. -/
structure BaseAgent (V : Type) where
  config : AgentConfig
  beh : Dict V → Nat → AttemptBehavior V
  elapsed : Nat

/-- `BaseAgent.execute` (`src/agents/base_agent.py` lines 151-259) over an
abstract per-attempt behaviour: a disabled agent short-circuits to a
Skipped result before any timing or attempt; otherwise the retry loop
runs starting from `retry_count = 0` with no last exception. -/
def BaseAgent.executeWith {V : Type} (cfg : AgentConfig)
    (beh : Nat → AttemptBehavior V) (elapsed : Nat) : AgentResult V × ExecTrace :=
  if cfg.enabled = false then
    ({ agentType := cfg.agentType
       stage := stageNumberOf cfg.agentType
       status := StageStatus.skipped
       data := []
       errorMessage := some ("Agent is disabled")
       executionTime := none
       retryCount := 0 }, emptyTrace)
  else
    agentLoop cfg beh elapsed ((cfg.maxRetries + 1).toNat) 0 none

/-- Execution of an instantiated agent on an input payload. -/
def BaseAgent.execute {V : Type} (a : BaseAgent V) (input : Dict V) :
    AgentResult V × ExecTrace :=
  BaseAgent.executeWith a.config (a.beh input) a.elapsed

/-- `BaseAgent._validate_config` (`src/agents/base_agent.py` lines
129-149), run by `__init__` before any execution: raises an
`AgentConfigurationException` for a negative retry budget or a timeout
under 30 seconds. -/
def validateConfig (cfg : AgentConfig) : Except AgentError Unit :=
  if cfg.maxRetries < 0 then
    Except.error ⟨ErrKind.configurationError, "max_retries cannot be negative"⟩
  else if cfg.timeout < 30 then
    Except.error ⟨ErrKind.configurationError, "timeout must be at least 30 seconds"⟩
  else
    Except.ok ()

/-- Agent construction as the orchestrator performs it in
`_initialize_agents` (`src/orchestrator.py` lines 115-123): the factory
builds the agent, whose `__init__` validates the configuration; any
exception is caught and the agent is simply absent (`none`) from the
orchestrator's agent table thereafter. -/
def createAgent {V : Type} (cfg : AgentConfig)
    (beh : Dict V → Nat → AttemptBehavior V) (elapsed : Nat) : Option (BaseAgent V) :=
  match validateConfig cfg with
  | Except.error _ => none
  | Except.ok _ => some ⟨cfg, beh, elapsed⟩

/-- `ProductListingOrchestrator._execute_stage` (`src/orchestrator.py`
lines 261-294): a stage whose agent was never constructed synthesizes a
Skipped result with an explanatory message instead of raising; otherwise
the agent's `execute` runs. The surrounding `except` clause of the
source is unreachable in the embedding because the embedded `execute` is
total, matching the code's guarantee that `execute` resolves every
attempt-level error itself. -/
def executeStage {V : Type} (agents : AgentType → Option (BaseAgent V))
    (t : AgentType) (input : Dict V) : AgentResult V × ExecTrace :=
  match agents t with
  | none =>
      ({ agentType := t
         stage := stageNumberOf t
         status := StageStatus.skipped
         data := []
         errorMessage := some ("Agent " ++ t.value ++ " not available")
         executionTime := none
         retryCount := 0 }, emptyTrace)
  | some a => a.execute input

/-- Contribution of a stage result to later stage inputs
(`src/orchestrator.py` lines 200-204 and 224-228): a stage that did not
complete contributes an empty dict. -/
def stageContribution {V : Type} (r : AgentResult V) : Dict V :=
  if r.status ≠ StageStatus.completed then [] else r.data

/-- Stage 1 of `_execute_pipeline_stages`: the description generator runs
on the original pipeline input. -/
def stage1Result {V : Type} (agents : AgentType → Option (BaseAgent V))
    (input : Dict V) : AgentResult V :=
  (executeStage agents AgentType.descriptionGenerator input).1

/-- The local `stage2_input = {**pipeline_result.input_data.dict(), **stage1_data}`
of `src/orchestrator.py` line 217. -/
def stage2Input {V : Type} (agents : AgentType → Option (BaseAgent V))
    (input : Dict V) : Dict V :=
  dictMerge input (stageContribution (stage1Result agents input))

/-- Stage 2 of `_execute_pipeline_stages`: the image generator runs on
the merged stage-2 input. -/
def stage2Result {V : Type} (agents : AgentType → Option (BaseAgent V))
    (input : Dict V) : AgentResult V :=
  (executeStage agents AgentType.imageGenerator (stage2Input agents input)).1

/-- The local `stage3_input = {**stage2_input, **stage2_data}` of
`src/orchestrator.py` line 241. -/
def stage3Input {V : Type} (agents : AgentType → Option (BaseAgent V))
    (input : Dict V) : Dict V :=
  dictMerge (stage2Input agents input) (stageContribution (stage2Result agents input))

/-- Stage 3 of `_execute_pipeline_stages`: the e-commerce integrator runs
on the merged stage-3 input. -/
def stage3Result {V : Type} (agents : AgentType → Option (BaseAgent V))
    (input : Dict V) : AgentResult V :=
  (executeStage agents AgentType.ecommerceIntegrator (stage3Input agents input)).1

/-- `ProductListingOrchestrator._execute_pipeline_stages`
(`src/orchestrator.py` lines 190-259): the three stages run strictly in
order and their results are appended to the run in order. The extraction
of the typed convenience fields (`EnhancedProductDescription`,
`GeneratedImage`, `ShopifyProductListing`) only logs on parse failure and
never alters statuses, stage inputs or the stage-result list, so it is
not modelled. -/
def executePipelineStages {V : Type} (agents : AgentType → Option (BaseAgent V))
    (input : Dict V) : List (AgentResult V) :=
  [stage1Result agents input, stage2Result agents input, stage3Result agents input]

/-- System-wide configuration (`src/models/data_models.py`, class
`SystemConfig`), reduced to the one field the orchestrator's control flow
reads (the API keys and cache settings only flow into agent options). -/
structure SystemConfig where
  defaultTimeout : Int
deriving DecidableEq

/-- Orchestrator state (`ProductListingOrchestrator.__init__`,
`src/orchestrator.py` lines 47-67): the constructed agent table, the
pipeline-wide timeout, and the active-pipelines table, modelled by its
key set (the values are the in-progress run records). -/
structure Orchestrator (V : Type) where
  agents : AgentType → Option (BaseAgent V)
  pipelineTimeout : Int
  activePipelines : List String

/-- Orchestrator construction: `self.pipeline_timeout = config.default_timeout * 3`
(`src/orchestrator.py` line 64) and an initially empty active table. -/
def mkOrchestrator {V : Type} (scfg : SystemConfig)
    (agents : AgentType → Option (BaseAgent V)) : Orchestrator V :=
  { agents := agents, pipelineTimeout := scfg.defaultTimeout * 3, activePipelines := [] }

/-- Pipeline run record (`src/models/data_models.py`, class
`PipelineResult`), omitting the typed convenience sub-results and the
creation timestamp; `completedAt` is an abstract timestamp supplied by
the caller. -/
structure PipelineResult (V : Type) where
  pipelineId : String
  inputData : Dict V
  stageResults : List (AgentResult V)
  finalStatus : StageStatus
  totalExecutionTime : Option Nat
  completedAt : Option Nat
  errorSummary : List String
deriving DecidableEq

/-- How `await asyncio.wait_for(self._execute_pipeline_stages(...), ...)`
in `execute_pipeline` resolves: stage sequencing finishes normally, the
pipeline-wide deadline fires first, or an unexpected exception escapes.
In the latter two cases the stage results appended before the
interruption are whatever prefix sequencing had reached; that prefix is
supplied as data because the interruption point is wall-clock-dependent
and not derivable in the embedding. -/
inductive SequencingOutcome (V : Type) where
  | finished
  | timedOut (collected : List (AgentResult V))
  | raised (msg : String) (collected : List (AgentResult V))

/-- The synthetic error recorded when the pipeline-wide deadline fires
(`src/orchestrator.py` line 167). -/
def pipelineTimeoutMessage (pt : Int) : String :=
  "Pipeline timeout after " ++ toString pt ++ "s"

/-- `ProductListingOrchestrator.execute_pipeline` (`src/orchestrator.py`
lines 125-188): register the fresh run id in the active table, run stage
sequencing under the pipeline deadline, derive the final status and error
summary (any Failed stage forces Failed and contributes its truthy error
message; a timeout or unexpected exception forces Failed with one
synthetic error), and in the `finally` block record total execution time
and completion timestamp and delete the run from the active table.
Returns the finished run together with the updated orchestrator state. -/
def executePipeline {V : Type} (orc : Orchestrator V) (pid : String)
    (input : Dict V) (outcome : SequencingOutcome V) (elapsed now : Nat) :
    PipelineResult V × Orchestrator V :=
  let active := if orc.activePipelines.contains pid then orc.activePipelines
                else orc.activePipelines ++ [pid]
  let results : List (AgentResult V) :=
    match outcome with
    | SequencingOutcome.finished => executePipelineStages orc.agents input
    | SequencingOutcome.timedOut collected => collected
    | SequencingOutcome.raised _ collected => collected
  let statusAndErrors : StageStatus × List String :=
    match outcome with
    | SequencingOutcome.finished =>
      let failedStages := results.filter (fun r => decide (r.status = StageStatus.failed))
      if failedStages.isEmpty then (StageStatus.completed, [])
      else
        (StageStatus.failed,
         failedStages.filterMap (fun r =>
           match r.errorMessage with
           | none => none
           | some m => if m = "" then none else some m))
    | SequencingOutcome.timedOut _ =>
        (StageStatus.failed, [pipelineTimeoutMessage orc.pipelineTimeout])
    | SequencingOutcome.raised msg _ =>
        (StageStatus.failed, ["Unexpected error: " ++ msg])
  ({ pipelineId := pid
     inputData := input
     stageResults := results
     finalStatus := statusAndErrors.1
     totalExecutionTime := some elapsed
     completedAt := some now
     errorSummary := statusAndErrors.2 },
   { orc with activePipelines := active.filter (fun q => q != pid) })

/-- Concrete fixture: an enabled description-generator configuration with
a retry budget of 2. -/
def cfgFailingDesc : AgentConfig :=
  { agentType := AgentType.descriptionGenerator, enabled := true, maxRetries := 2, timeout := 60 }

/-- Concrete fixture: an attempt behaviour whose input validation always
returns `False`. -/
def behInvalidInput : Dict String → Nat → AttemptBehavior String :=
  fun _ _ => ⟨ValBehavior.retBool false, CoreBehavior.ret [], ValBehavior.retBool true⟩

/-- The error every attempt of `behInvalidInput` produces. -/
def errInvalidInput : AgentError :=
  ⟨ErrKind.validationError, "Input validation failed"⟩

/-- Concrete fixture: a stage-1 agent whose every attempt fails input
validation. -/
def agentFailDesc : BaseAgent String :=
  { config := cfgFailingDesc, beh := behInvalidInput, elapsed := 7 }

/-- Concrete fixture: the image-generator configuration of the claims'
timeout scenario (`max_retries = 2`, `timeout = 180`). -/
def cfgTimeoutImage : AgentConfig :=
  { agentType := AgentType.imageGenerator, enabled := true, maxRetries := 2, timeout := 180 }

/-- Concrete fixture: an attempt behaviour whose core operation always
exceeds its deadline. -/
def behTimesOut : Dict String → Nat → AttemptBehavior String :=
  fun _ _ => ⟨ValBehavior.retBool true, CoreBehavior.timesOut, ValBehavior.retBool true⟩

/-- The timeout error every attempt of `behTimesOut` produces under
`cfgTimeoutImage`. -/
def errTimeoutImage : AgentError :=
  ⟨ErrKind.timeoutError, timeoutMessage cfgTimeoutImage⟩

/-- Concrete fixture: a stage-2 agent that always times out. -/
def agentTimeoutImage : BaseAgent String :=
  { config := cfgTimeoutImage, beh := behTimesOut, elapsed := 11 }

/-- Concrete fixture: a disabled e-commerce agent. -/
def agentDisabledEcom : BaseAgent String :=
  { config := { agentType := AgentType.ecommerceIntegrator, enabled := false,
                maxRetries := 2, timeout := 120 }
    beh := fun _ _ => ⟨ValBehavior.retBool true, CoreBehavior.ret [], ValBehavior.retBool true⟩
    elapsed := 3 }

/-- Concrete fixture: an attempt behaviour that always succeeds with a
fixed output payload. -/
def behReturns (out : Dict String) : Dict String → Nat → AttemptBehavior String :=
  fun _ _ => ⟨ValBehavior.retBool true, CoreBehavior.ret out, ValBehavior.retBool true⟩

/-- Concrete fixture: an agent that completes on the first attempt. -/
def agentOkImage : BaseAgent String :=
  { config := cfgTimeoutImage, beh := behReturns [("image_url", "u")], elapsed := 4 }

/-- Concrete fixture: a succeeding stage-3 agent. -/
def agentOkEcom : BaseAgent String :=
  { config := { agentType := AgentType.ecommerceIntegrator, enabled := true,
                maxRetries := 2, timeout := 120 }
    beh := behReturns [("listing", "l")]
    elapsed := 5 }

/-- Concrete fixture: an agent table whose stage 1 always fails and whose
stages 2 and 3 succeed. -/
def agentsStage1Fails : AgentType → Option (BaseAgent String) :=
  fun t =>
    match t with
    | AgentType.descriptionGenerator => some agentFailDesc
    | AgentType.imageGenerator => some agentOkImage
    | AgentType.ecommerceIntegrator => some agentOkEcom
    | AgentType.orchestrator => none

/-- Concrete fixture: an enabled configuration whose timeout is below the
30-second minimum, so agent construction fails. -/
def cfgBadTimeout : AgentConfig :=
  { agentType := AgentType.imageGenerator, enabled := true, maxRetries := 2, timeout := 10 }

/-- Concrete fixture: an agent table in which the image agent's
construction failed (as happens in the repository itself, where the image
agent is never registered with the factory), leaving the slot empty even
though its configuration was enabled. -/
def agentsBadImage : AgentType → Option (BaseAgent String) :=
  fun t =>
    if t = AgentType.imageGenerator then createAgent cfgBadTimeout behTimesOut 0
    else none

/-- Concrete fixture: a concrete pipeline input payload. -/
def inputWidget : Dict String :=
  [("product_title", "Widget"), ("product_description", "A widget.")]

/-- Concrete fixture: an orchestrator over `agentsStage1Fails` with the
default 300-second per-stage timeout. -/
def orcStage1Fails : Orchestrator String :=
  mkOrchestrator ⟨300⟩ agentsStage1Fails

/-- Merging the empty dict on the right is the identity, so a stage that
contributed nothing leaves the next stage's input untouched. -/
theorem dictMerge_nil {V : Type} (a : Dict V) : dictMerge a [] = a := rfl

/-- Two successive shallow merges collapse into one merge of the
concatenated right-hand sides, exactly as Python's nested double-splat
expressions do. -/
theorem dictMerge_append {V : Type} (a b c : Dict V) :
    dictMerge (dictMerge a b) c = dictMerge a (b ++ c) := by
  simp [dictMerge, List.foldl_append]

/-- The retry loop only ever returns Failed or Completed results. -/
theorem agentLoop_status {V : Type} (cfg : AgentConfig) (beh : Nat → AttemptBehavior V)
    (elapsed : Nat) :
    ∀ (fuel rc : Nat) (le : Option AgentError),
      (agentLoop cfg beh elapsed fuel rc le).1.status = StageStatus.failed ∨
      (agentLoop cfg beh elapsed fuel rc le).1.status = StageStatus.completed := by
  intro fuel
  induction fuel with
  | zero => intro rc le; left; rfl
  | succ f ih =>
    intro rc le
    rcases h : runAttempt cfg (beh rc) with ⟨res, c⟩
    cases res with
    | ok out =>
      right
      simp [agentLoop, h, mkCompletedResult]
    | error e =>
      have hrec := ih (rc + 1) (some e)
      by_cases hf : f = 0 <;> simpa [agentLoop, h, hf] using hrec

/-- When every attempt fails, the loop consumes all its fuel, performs
one attempt per unit of fuel, and ends in a Failed result carrying the
last attempt's error and the final value of the running retry counter. -/
theorem agentLoop_allFail {V : Type} (cfg : AgentConfig) (beh : Nat → AttemptBehavior V)
    (elapsed : Nat) (E : Nat → AgentError)
    (hfail : ∀ n, (runAttempt cfg (beh n)).1 = Except.error (E n)) :
    ∀ (fuel rc : Nat) (le : Option AgentError),
      (agentLoop cfg beh elapsed (fuel + 1) rc le).1
        = mkFailedResult cfg elapsed (rc + fuel + 1) (some (E (rc + fuel))) ∧
      (agentLoop cfg beh elapsed (fuel + 1) rc le).2.attempts = fuel + 1 := by
  intro fuel
  induction fuel with
  | zero =>
    intro rc le
    rcases h : runAttempt cfg (beh rc) with ⟨res, c⟩
    have hres := hfail rc
    rw [h] at hres
    simp only at hres
    subst hres
    constructor
    · simp [agentLoop, h]
    · simp [agentLoop, h, traceCons, emptyTrace]
  | succ f ihf =>
    intro rc le
    rcases h : runAttempt cfg (beh rc) with ⟨res, c⟩
    have hres := hfail rc
    rw [h] at hres
    simp only at hres
    subst hres
    have ih := ihf (rc + 1) (some (E rc))
    have e1 : rc + 1 + f + 1 = rc + (f + 1) + 1 := by omega
    have e2 : rc + 1 + f = rc + (f + 1) := by omega
    constructor
    · rw [show (agentLoop cfg beh elapsed (f + 1 + 1) rc le).1
            = (agentLoop cfg beh elapsed (f + 1) (rc + 1) (some (E rc))).1 by
          simp [agentLoop, h]]
      rw [ih.1, e1, e2]
    · have : (agentLoop cfg beh elapsed (f + 1 + 1) rc le).2.attempts
          = (agentLoop cfg beh elapsed (f + 1) (rc + 1) (some (E rc))).2.attempts + 1 := by
        simp [agentLoop, h, traceCons]
      rw [this, ih.2]

/-- When every attempt fails, the backoff sleeps are exactly
`min(2 ** i, 30)` seconds for the successive values `i` of the retry
counter, one sleep per retry that is actually followed by another
attempt, and none after the final attempt. -/
theorem agentLoop_allFail_sleeps {V : Type} (cfg : AgentConfig)
    (beh : Nat → AttemptBehavior V) (elapsed : Nat) (E : Nat → AgentError)
    (hfail : ∀ n, (runAttempt cfg (beh n)).1 = Except.error (E n)) :
    ∀ (fuel rc : Nat) (le : Option AgentError),
      (agentLoop cfg beh elapsed (fuel + 1) rc le).2.sleeps
        = (List.range fuel).map (fun i => min (2 ^ (rc + 1 + i)) 30) := by
  intro fuel
  induction fuel with
  | zero =>
    intro rc le
    rcases h : runAttempt cfg (beh rc) with ⟨res, c⟩
    have hres := hfail rc
    rw [h] at hres
    simp only at hres
    subst hres
    simp [agentLoop, h, traceCons, emptyTrace]
  | succ f ihf =>
    intro rc le
    rcases h : runAttempt cfg (beh rc) with ⟨res, c⟩
    have hres := hfail rc
    rw [h] at hres
    simp only at hres
    subst hres
    have ih := ihf (rc + 1) (some (E rc))
    have step : (agentLoop cfg beh elapsed (f + 1 + 1) rc le).2.sleeps
        = min (2 ^ (rc + 1)) 30
            :: (agentLoop cfg beh elapsed (f + 1) (rc + 1) (some (E rc))).2.sleeps := by
      simp [agentLoop, h, traceCons]
    rw [step, ih, List.range_succ_eq_map]
    simp only [List.map_cons, List.map_map]
    congr 1
    apply List.map_congr_left
    intro i hi
    have he : rc + 1 + 1 + i = rc + 1 + (i + 1) := by omega
    rw [he]
    rfl

/-- C1: for every enabled agent configuration with `max_retries = R`, if
every attempt fails (input validation, execute, or output validation),
then `BaseAgent.execute` performs exactly `R + 1` attempts and returns an
`AgentResult` with status Failed, `retry_count = R`, empty output
payload, and `error_message` equal to the string of the last attempt's
error. -/
theorem execute_allFail_failedResult {V : Type} (R : Nat) (a : BaseAgent V)
    (input : Dict V) (E : Nat → AgentError)
    (hen : a.config.enabled = true) (hR : a.config.maxRetries = (R : Int))
    (hfail : ∀ n, (runAttempt a.config (a.beh input n)).1 = Except.error (E n)) :
    (a.execute input).2.attempts = R + 1 ∧
    (a.execute input).1.status = StageStatus.failed ∧
    (a.execute input).1.retryCount = (R : Int) ∧
    (a.execute input).1.data = [] ∧
    (a.execute input).1.errorMessage = some (E R).message := by
  have hfuel : (a.config.maxRetries + 1).toNat = R + 1 := by rw [hR]; omega
  have hexec : a.execute input
      = agentLoop a.config (a.beh input) a.elapsed (R + 1) 0 none := by
    rw [BaseAgent.execute, BaseAgent.executeWith, hfuel]
    rw [if_neg (by simp [hen])]
  have hmain := agentLoop_allFail a.config (a.beh input) a.elapsed E hfail R 0 none
  rw [hexec]
  refine ⟨hmain.2, ?_, ?_, ?_, ?_⟩
  · rw [hmain.1]; rfl
  · rw [hmain.1]; simp [mkFailedResult]
  · rw [hmain.1]; rfl
  · rw [hmain.1]; simp [mkFailedResult, strOfLastError]

/-- Witness for `execute_allFail_failedResult`: the concrete stage-1
agent whose input validation always fails, with retry budget 2, performs
3 attempts and fails with retry count 2 and the last validation error's
message. -/
theorem execute_allFail_failedResult_witness :
    agentFailDesc.config.enabled = true ∧
    agentFailDesc.config.maxRetries = ((2 : Nat) : Int) ∧
    (∀ n, (runAttempt agentFailDesc.config (agentFailDesc.beh inputWidget n)).1
        = Except.error errInvalidInput) ∧
    ((agentFailDesc.execute inputWidget).2.attempts = 2 + 1 ∧
     (agentFailDesc.execute inputWidget).1.status = StageStatus.failed ∧
     (agentFailDesc.execute inputWidget).1.retryCount = ((2 : Nat) : Int) ∧
     (agentFailDesc.execute inputWidget).1.data = [] ∧
     (agentFailDesc.execute inputWidget).1.errorMessage = some errInvalidInput.message) :=
  ⟨rfl, rfl, fun _ => rfl,
   execute_allFail_failedResult 2 agentFailDesc inputWidget (fun _ => errInvalidInput)
     rfl rfl (fun _ => rfl)⟩

/-- C5: for every enabled agent configuration with `max_retries = R`
whose every attempt fails, the chronological backoff-sleep list is
exactly `min(2 ** i, 30)` seconds for `i = 1..R` — the delay before
attempt `i + 1` — with precisely `R` entries, so no sleep follows the
final attempt, which ends in a Failed result with `retry_count = R`. -/
theorem execute_allFail_backoff {V : Type} (R : Nat) (a : BaseAgent V)
    (input : Dict V) (E : Nat → AgentError)
    (hen : a.config.enabled = true) (hR : a.config.maxRetries = (R : Int))
    (hfail : ∀ n, (runAttempt a.config (a.beh input n)).1 = Except.error (E n)) :
    (a.execute input).2.sleeps = (List.range R).map (fun i => min (2 ^ (i + 1)) 30) ∧
    (a.execute input).2.sleeps.length = R ∧
    (a.execute input).1.status = StageStatus.failed ∧
    (a.execute input).1.retryCount = (R : Int) := by
  have hfuel : (a.config.maxRetries + 1).toNat = R + 1 := by rw [hR]; omega
  have hexec : a.execute input
      = agentLoop a.config (a.beh input) a.elapsed (R + 1) 0 none := by
    rw [BaseAgent.execute, BaseAgent.executeWith, hfuel]
    rw [if_neg (by simp [hen])]
  have hsleeps := agentLoop_allFail_sleeps a.config (a.beh input) a.elapsed E hfail R 0 none
  have hmain := agentLoop_allFail a.config (a.beh input) a.elapsed E hfail R 0 none
  have hmap : (List.range R).map (fun i => min (2 ^ (0 + 1 + i)) 30)
      = (List.range R).map (fun i => min (2 ^ (i + 1)) 30) := by
    apply List.map_congr_left
    intro i hi
    have he : 0 + 1 + i = i + 1 := by omega
    rw [he]
  rw [hexec]
  refine ⟨?_, ?_, ?_, ?_⟩
  · rw [hsleeps, hmap]
  · rw [hsleeps, hmap]; simp
  · rw [hmain.1]; rfl
  · rw [hmain.1]; simp [mkFailedResult]

/-- Witness for `execute_allFail_backoff`: the claims' scenario — a
stage-2 agent with `max_retries = 2` that always times out sleeps exactly
twice, 2 s then 4 s, before its final Failed result with retry count 2. -/
theorem execute_allFail_backoff_witness :
    agentTimeoutImage.config.enabled = true ∧
    agentTimeoutImage.config.maxRetries = ((2 : Nat) : Int) ∧
    (∀ n, (runAttempt agentTimeoutImage.config (agentTimeoutImage.beh inputWidget n)).1
        = Except.error errTimeoutImage) ∧
    (agentTimeoutImage.execute inputWidget).2.sleeps = [2, 4] ∧
    (agentTimeoutImage.execute inputWidget).2.sleeps.length = 2 ∧
    (agentTimeoutImage.execute inputWidget).1.status = StageStatus.failed ∧
    (agentTimeoutImage.execute inputWidget).1.retryCount = ((2 : Nat) : Int) := by
  have h := execute_allFail_backoff 2 agentTimeoutImage inputWidget
    (fun _ => errTimeoutImage) rfl rfl (fun _ => rfl)
  exact ⟨rfl, rfl, fun _ => rfl, h.1.trans (by decide), h.2.1, h.2.2.1, h.2.2.2⟩

/-- C6: for every agent configuration with `enabled = false`,
`BaseAgent.execute` returns a Skipped result immediately: input
validation, the core operation and output validation are never invoked
(the whole execution trace is empty), the output payload is empty, and no
execution time is recorded. -/
theorem execute_disabled_skipped {V : Type} (a : BaseAgent V) (input : Dict V)
    (h : a.config.enabled = false) :
    (a.execute input).1.status = StageStatus.skipped ∧
    (a.execute input).1.data = [] ∧
    (a.execute input).1.errorMessage = some ("Agent is disabled") ∧
    (a.execute input).1.executionTime = none ∧
    (a.execute input).1.retryCount = 0 ∧
    (a.execute input).2.attempts = 0 ∧
    (a.execute input).2.inputValidations = 0 ∧
    (a.execute input).2.coreExecutions = 0 ∧
    (a.execute input).2.outputValidations = 0 := by
  simp [BaseAgent.execute, BaseAgent.executeWith, h, emptyTrace]

/-- Witness for `execute_disabled_skipped` at the concrete disabled
e-commerce agent. -/
theorem execute_disabled_skipped_witness :
    agentDisabledEcom.config.enabled = false ∧
    ((agentDisabledEcom.execute inputWidget).1.status = StageStatus.skipped ∧
     (agentDisabledEcom.execute inputWidget).1.data = [] ∧
     (agentDisabledEcom.execute inputWidget).1.errorMessage = some ("Agent is disabled") ∧
     (agentDisabledEcom.execute inputWidget).1.executionTime = none ∧
     (agentDisabledEcom.execute inputWidget).1.retryCount = 0 ∧
     (agentDisabledEcom.execute inputWidget).2.attempts = 0 ∧
     (agentDisabledEcom.execute inputWidget).2.inputValidations = 0 ∧
     (agentDisabledEcom.execute inputWidget).2.coreExecutions = 0 ∧
     (agentDisabledEcom.execute inputWidget).2.outputValidations = 0) :=
  ⟨rfl, execute_disabled_skipped agentDisabledEcom inputWidget rfl⟩

/-- C7: for every input payload and every behaviour of the validators and
core operation — arbitrary raised exceptions and timeouts included —
`BaseAgent.execute` is a total function (it never raises): it always
returns a terminal `AgentResult` whose status is Completed, Failed or
Skipped. -/
theorem execute_never_raises {V : Type} (a : BaseAgent V) (input : Dict V) :
    (a.execute input).1.status = StageStatus.completed ∨
    (a.execute input).1.status = StageStatus.failed ∨
    (a.execute input).1.status = StageStatus.skipped := by
  rw [BaseAgent.execute, BaseAgent.executeWith]
  by_cases h : a.config.enabled = false
  · rw [if_pos h]; right; right; rfl
  · rw [if_neg h]
    rcases agentLoop_status a.config (a.beh input) a.elapsed
        ((a.config.maxRetries + 1).toNat) 0 none with hf | hc
    · right; left; exact hf
    · left; exact hc

/-- C8: constructing an agent whose configuration has `max_retries < 0`
or `timeout < 30` makes `_validate_config` raise an
`AgentConfigurationException` during `__init__`, before any execution;
the orchestrator catches the construction failure, leaving the agent
absent from the pipeline, and the corresponding stage then yields a
synthesized Skipped result instead of raising. -/
theorem invalid_config_fatal {V : Type} (cfg : AgentConfig)
    (beh : Dict V → Nat → AttemptBehavior V) (elapsed : Nat) (input : Dict V)
    (hbad : cfg.maxRetries < 0 ∨ cfg.timeout < 30) :
    (∃ e, validateConfig cfg = Except.error e ∧ e.kind = ErrKind.configurationError) ∧
    createAgent cfg beh elapsed = none ∧
    ((executeStage (fun t => if t = cfg.agentType then createAgent cfg beh elapsed else none)
        cfg.agentType input).1.status = StageStatus.skipped) ∧
    ((executeStage (fun t => if t = cfg.agentType then createAgent cfg beh elapsed else none)
        cfg.agentType input).1.errorMessage
      = some ("Agent " ++ cfg.agentType.value ++ " not available")) := by
  have hval : ∃ e, validateConfig cfg = Except.error e ∧ e.kind = ErrKind.configurationError := by
    by_cases h1 : cfg.maxRetries < 0
    · exact ⟨⟨ErrKind.configurationError, "max_retries cannot be negative"⟩,
        by rw [validateConfig, if_pos h1], rfl⟩
    · have h2 : cfg.timeout < 30 := by tauto
      exact ⟨⟨ErrKind.configurationError, "timeout must be at least 30 seconds"⟩,
        by rw [validateConfig, if_neg h1, if_pos h2], rfl⟩
  have hnone : createAgent cfg beh elapsed = none := by
    rcases hval with ⟨e, he, _⟩
    rw [createAgent, he]
  refine ⟨hval, hnone, ?_, ?_⟩
  · simp [executeStage, hnone]
  · simp [executeStage, hnone]

/-- Witness for `invalid_config_fatal`: the enabled image configuration
with a 10-second timeout is rejected at construction, and stage 2 of a
pipeline built from it is synthesized as Skipped. -/
theorem invalid_config_fatal_witness :
    (cfgBadTimeout.maxRetries < 0 ∨ cfgBadTimeout.timeout < 30) ∧
    ((∃ e, validateConfig cfgBadTimeout = Except.error e ∧
        e.kind = ErrKind.configurationError) ∧
     createAgent cfgBadTimeout behTimesOut 0 = none ∧
     ((executeStage
          (fun t => if t = cfgBadTimeout.agentType
                    then createAgent cfgBadTimeout behTimesOut 0 else none)
          cfgBadTimeout.agentType inputWidget).1.status = StageStatus.skipped) ∧
     ((executeStage
          (fun t => if t = cfgBadTimeout.agentType
                    then createAgent cfgBadTimeout behTimesOut 0 else none)
          cfgBadTimeout.agentType inputWidget).1.errorMessage
        = some ("Agent " ++ cfgBadTimeout.agentType.value ++ " not available"))) :=
  ⟨by decide,
   invalid_config_fatal cfgBadTimeout behTimesOut 0 inputWidget (by decide)⟩

/-- C9 counterexample: in the concrete agent table where the image
agent's (enabled) configuration was rejected at construction — as happens
in the repository itself, where the image agent is never registered with
the factory — the stage-2 result is Skipped although no agent was
disabled at construction time, refuting the claimed equivalence between
status Skipped and a disabled agent. -/
theorem stage_skipped_iff_counterexample :
    ¬ (((executeStage agentsBadImage AgentType.imageGenerator inputWidget).1.status
          = StageStatus.skipped) ↔
       (∃ a, agentsBadImage AgentType.imageGenerator = some a ∧
          a.config.enabled = false)) := by
  intro hiff
  have hs : (executeStage agentsBadImage AgentType.imageGenerator inputWidget).1.status
      = StageStatus.skipped := rfl
  rcases hiff.mp hs with ⟨a, ha, _⟩
  rw [show agentsBadImage AgentType.imageGenerator = none from rfl] at ha
  exact Option.noConfusion ha

/-- C9 (amended): an `AgentResult` produced by a pipeline stage has
status Skipped iff its agent was disabled at construction time or its
agent was never constructed at all (absent from the orchestrator's agent
table after a registration or construction failure); in either case the
stage performs no attempt — input validation, the core operation and
output validation are never invoked. -/
theorem stage_skipped_iff {V : Type} (agents : AgentType → Option (BaseAgent V))
    (t : AgentType) (input : Dict V) :
    ((executeStage agents t input).1.status = StageStatus.skipped ↔
      (agents t = none ∨ ∃ a, agents t = some a ∧ a.config.enabled = false)) ∧
    ((executeStage agents t input).1.status = StageStatus.skipped →
      (executeStage agents t input).2.attempts = 0 ∧
      (executeStage agents t input).2.inputValidations = 0 ∧
      (executeStage agents t input).2.coreExecutions = 0 ∧
      (executeStage agents t input).2.outputValidations = 0) := by
  rcases h : agents t with _ | a
  · constructor
    · simp [executeStage, h]
    · intro _
      simp [executeStage, h, emptyTrace]
  · cases he : a.config.enabled
    · constructor
      · constructor
        · intro _
          exact Or.inr ⟨a, rfl, he⟩
        · intro _
          simp [executeStage, h, BaseAgent.execute, BaseAgent.executeWith, he]
      · intro _
        simp [executeStage, h, BaseAgent.execute, BaseAgent.executeWith, he, emptyTrace]
    · have hne : (a.execute input).1.status ≠ StageStatus.skipped := by
        rw [BaseAgent.execute, BaseAgent.executeWith, if_neg (by simp [he])]
        rcases agentLoop_status a.config (a.beh input) a.elapsed
            ((a.config.maxRetries + 1).toNat) 0 none with hf | hc
        · rw [hf]; decide
        · rw [hc]; decide
      have hex : executeStage agents t input = a.execute input := by
        simp [executeStage, h]
      refine ⟨?_, ?_⟩
      · rw [hex]
        constructor
        · intro hs
          exact absurd hs hne
        · rintro (hnone | ⟨a2, ha2, hena2⟩)
          · exact Option.noConfusion hnone
          · have haa : a = a2 := by injection ha2
            rw [← haa] at hena2
            rw [he] at hena2
            exact Bool.noConfusion hena2
      · rw [hex]
        intro hs
        exact absurd hs hne

/-- C2: each stage's input is the shallow merge of the original pipeline
input with every previous stage's successful output, a non-Completed
(Failed or Skipped) stage contributing no keys; in particular when stage
1 fails, stage 2 receives exactly the original input with no stage-1
keys merged in, and the stage-2 and stage-3 results are still computed
from their merged inputs and appended to the run in order. -/
theorem pipeline_stage_inputs {V : Type} (agents : AgentType → Option (BaseAgent V))
    (input : Dict V) :
    executePipelineStages agents input
      = [stage1Result agents input, stage2Result agents input, stage3Result agents input] ∧
    stage2Input agents input
      = dictMerge input (stageContribution (stage1Result agents input)) ∧
    stage3Input agents input
      = dictMerge input
          (stageContribution (stage1Result agents input)
            ++ stageContribution (stage2Result agents input)) ∧
    stage2Result agents input
      = (executeStage agents AgentType.imageGenerator (stage2Input agents input)).1 ∧
    stage3Result agents input
      = (executeStage agents AgentType.ecommerceIntegrator (stage3Input agents input)).1 ∧
    ((stage1Result agents input).status = StageStatus.failed →
      stage2Input agents input = input) ∧
    ((stage1Result agents input).status = StageStatus.skipped →
      stage2Input agents input = input) := by
  refine ⟨rfl, rfl, ?_, rfl, rfl, ?_, ?_⟩
  · rw [stage3Input, stage2Input, dictMerge_append]
  · intro hf
    have hc : stageContribution (stage1Result agents input) = [] := by
      simp [stageContribution, hf]
    rw [stage2Input, hc, dictMerge_nil]
  · intro hf
    have hc : stageContribution (stage1Result agents input) = [] := by
      simp [stageContribution, hf]
    rw [stage2Input, hc, dictMerge_nil]

/-- Witness for `pipeline_stage_inputs` at the concrete table whose stage
1 fails: stage 2 receives exactly the original input. -/
theorem pipeline_stage_inputs_witness :
    (stage1Result agentsStage1Fails inputWidget).status = StageStatus.failed ∧
    stage2Input agentsStage1Fails inputWidget = inputWidget :=
  ⟨by decide,
   (pipeline_stage_inputs agentsStage1Fails inputWidget).2.2.2.2.2.1 (by decide)⟩

/-- C3: the pipeline's overall deadline is three times the configured
default per-stage timeout, and when it fires before stage sequencing
finishes, `execute_pipeline` returns a run whose final status is Failed
with a single synthetic pipeline-timeout error as its whole error list,
while the stage results collected before the timeout remain visible in
the stage-result list. -/
theorem pipeline_timeout_result {V : Type} (scfg : SystemConfig)
    (agents : AgentType → Option (BaseAgent V)) (pid : String) (input : Dict V)
    (collected : List (AgentResult V)) (elapsed now : Nat) :
    (mkOrchestrator scfg agents).pipelineTimeout = 3 * scfg.defaultTimeout ∧
    (executePipeline (mkOrchestrator scfg agents) pid input
        (SequencingOutcome.timedOut collected) elapsed now).1.finalStatus
      = StageStatus.failed ∧
    (executePipeline (mkOrchestrator scfg agents) pid input
        (SequencingOutcome.timedOut collected) elapsed now).1.errorSummary
      = [pipelineTimeoutMessage (scfg.defaultTimeout * 3)] ∧
    (executePipeline (mkOrchestrator scfg agents) pid input
        (SequencingOutcome.timedOut collected) elapsed now).1.errorSummary.length = 1 ∧
    (executePipeline (mkOrchestrator scfg agents) pid input
        (SequencingOutcome.timedOut collected) elapsed now).1.stageResults = collected := by
  refine ⟨?_, rfl, rfl, rfl, rfl⟩
  rw [mkOrchestrator]
  ring

/-- C10: on every exit path of `execute_pipeline` — normal completion,
stage failure, pipeline timeout, and unexpected internal exception alike —
the run receives a total execution time and a completion timestamp and is
removed from the active-pipelines table, so the run never remains active
after `execute_pipeline` returns its result. -/
theorem pipeline_always_finalized {V : Type} (orc : Orchestrator V) (pid : String)
    (input : Dict V) (outcome : SequencingOutcome V) (elapsed now : Nat) :
    pid ∉ (executePipeline orc pid input outcome elapsed now).2.activePipelines ∧
    (executePipeline orc pid input outcome elapsed now).1.totalExecutionTime = some elapsed ∧
    (executePipeline orc pid input outcome elapsed now).1.completedAt = some now := by
  refine ⟨?_, rfl, rfl⟩
  intro hmem
  simp only [executePipeline] at hmem
  have h2 := (List.mem_filter.mp hmem).2
  simp at h2

/-- Witness for `pipeline_always_finalized` on a concrete finished run. -/
theorem pipeline_always_finalized_witness :
    ("run2" ∉ (executePipeline orcStage1Fails ("run2") inputWidget
        SequencingOutcome.finished 5 9).2.activePipelines ∧
     (executePipeline orcStage1Fails ("run2") inputWidget
        SequencingOutcome.finished 5 9).1.totalExecutionTime = some 5 ∧
     (executePipeline orcStage1Fails ("run2") inputWidget
        SequencingOutcome.finished 5 9).1.completedAt = some 9) :=
  pipeline_always_finalized orcStage1Fails ("run2") inputWidget
    SequencingOutcome.finished 5 9

/-- Helper for the error-summary aggregation: when every listed result
carries a non-empty error message, the truthiness filter of
`execute_pipeline` keeps exactly the recorded messages. -/
theorem filterMap_truthy_eq {V : Type} (l : List (AgentResult V))
    (h : ∀ r ∈ l, (r.errorMessage.getD "") ≠ "") :
    l.filterMap (fun r =>
        match r.errorMessage with
        | none => none
        | some m => if m = "" then none else some m)
      = l.filterMap (fun r => r.errorMessage) := by
  induction l with
  | nil => rfl
  | cons r tl ih =>
    have hr := h r (by simp)
    have htl : ∀ x ∈ tl, (x.errorMessage.getD "") ≠ "" := fun x hx => h x (by simp [hx])
    rcases hm : r.errorMessage with _ | m
    · rw [hm] at hr
      simp at hr
    · rw [hm] at hr
      simp only [Option.getD_some] at hr
      simp [List.filterMap_cons, hm, hr, ih htl]

/-- C4: for every pipeline run that completes stage sequencing without a
pipeline-level timeout, the overall status is Failed iff at least one
stage result is Failed (otherwise Completed), and in the failed case the
aggregated error list collects every failed stage's error message. The
hypothesis that failed stages carry non-empty messages always holds for
results this system produces: the framework's own messages are non-empty
literals, and so is every message the repository's concrete agents
raise. -/
theorem pipeline_final_status {V : Type} (orc : Orchestrator V) (pid : String)
    (input : Dict V) (elapsed now : Nat)
    (hmsg : ∀ r ∈ executePipelineStages orc.agents input,
        r.status = StageStatus.failed → (r.errorMessage.getD "") ≠ "") :
    ((executePipeline orc pid input SequencingOutcome.finished elapsed now).1.finalStatus
        = StageStatus.failed
      ↔ ∃ r ∈ (executePipeline orc pid input
            SequencingOutcome.finished elapsed now).1.stageResults,
          r.status = StageStatus.failed) ∧
    ((executePipeline orc pid input SequencingOutcome.finished elapsed now).1.finalStatus
        = StageStatus.failed ∨
     (executePipeline orc pid input SequencingOutcome.finished elapsed now).1.finalStatus
        = StageStatus.completed) ∧
    (executePipeline orc pid input SequencingOutcome.finished elapsed now).1.stageResults
      = executePipelineStages orc.agents input ∧
    (executePipeline orc pid input SequencingOutcome.finished elapsed now).1.errorSummary
      = ((executePipelineStages orc.agents input).filter
            (fun r => decide (r.status = StageStatus.failed))).filterMap
          (fun r => r.errorMessage) := by
  have hsr : (executePipeline orc pid input
      SequencingOutcome.finished elapsed now).1.stageResults
      = executePipelineStages orc.agents input := rfl
  by_cases hemp :
      ((executePipelineStages orc.agents input).filter
        (fun r => decide (r.status = StageStatus.failed))).isEmpty
  · have hnil : (executePipelineStages orc.agents input).filter
        (fun r => decide (r.status = StageStatus.failed)) = [] := by
      simpa using hemp
    have hall : ∀ r ∈ executePipelineStages orc.agents input,
        ¬ r.status = StageStatus.failed := by
      intro r hr
      have hh := List.filter_eq_nil_iff.mp hnil r hr
      simpa using hh
    have hfin : (executePipeline orc pid input
        SequencingOutcome.finished elapsed now).1.finalStatus = StageStatus.completed := by
      simp [executePipeline, hemp]
    refine ⟨?_, Or.inr hfin, hsr, ?_⟩
    · rw [hsr, hfin]
      constructor
      · intro hfs
        exact absurd hfs (by decide)
      · rintro ⟨r, hr, hf⟩
        exact absurd hf (hall r hr)
    · rw [show (executePipeline orc pid input
          SequencingOutcome.finished elapsed now).1.errorSummary = [] by
          simp [executePipeline, hemp]]
      rw [hnil]
      rfl
  · have hne : (executePipelineStages orc.agents input).filter
        (fun r => decide (r.status = StageStatus.failed)) ≠ [] := by
      simpa using hemp
    have hfin : (executePipeline orc pid input
        SequencingOutcome.finished elapsed now).1.finalStatus = StageStatus.failed := by
      simp [executePipeline, hemp]
    refine ⟨?_, Or.inl hfin, hsr, ?_⟩
    · rw [hsr, hfin]
      constructor
      · intro _
        obtain ⟨r, hrmem⟩ := List.exists_mem_of_ne_nil _ hne
        have hmf := List.mem_filter.mp hrmem
        exact ⟨r, hmf.1, by simpa using hmf.2⟩
      · intro _
        rfl
    · rw [show (executePipeline orc pid input
          SequencingOutcome.finished elapsed now).1.errorSummary
          = ((executePipelineStages orc.agents input).filter
              (fun r => decide (r.status = StageStatus.failed))).filterMap
            (fun r =>
              match r.errorMessage with
              | none => none
              | some m => if m = "" then none else some m) by
          simp [executePipeline, hemp]]
      apply filterMap_truthy_eq
      intro r hr
      have hmf := List.mem_filter.mp hr
      exact hmsg r hmf.1 (by simpa using hmf.2)

/-- Witness for `pipeline_final_status` at the concrete orchestrator
whose stage 1 fails with a non-empty message. -/
theorem pipeline_final_status_witness :
    (∀ r ∈ executePipelineStages orcStage1Fails.agents inputWidget,
        r.status = StageStatus.failed → (r.errorMessage.getD "") ≠ "") ∧
    (((executePipeline orcStage1Fails ("run1") inputWidget
          SequencingOutcome.finished 5 9).1.finalStatus = StageStatus.failed
        ↔ ∃ r ∈ (executePipeline orcStage1Fails ("run1") inputWidget
              SequencingOutcome.finished 5 9).1.stageResults,
            r.status = StageStatus.failed) ∧
     ((executePipeline orcStage1Fails ("run1") inputWidget
          SequencingOutcome.finished 5 9).1.finalStatus = StageStatus.failed ∨
      (executePipeline orcStage1Fails ("run1") inputWidget
          SequencingOutcome.finished 5 9).1.finalStatus = StageStatus.completed) ∧
     (executePipeline orcStage1Fails ("run1") inputWidget
          SequencingOutcome.finished 5 9).1.stageResults
        = executePipelineStages orcStage1Fails.agents inputWidget ∧
     (executePipeline orcStage1Fails ("run1") inputWidget
          SequencingOutcome.finished 5 9).1.errorSummary
        = ((executePipelineStages orcStage1Fails.agents inputWidget).filter
              (fun r => decide (r.status = StageStatus.failed))).filterMap
            (fun r => r.errorMessage)) :=
  ⟨by decide,
   pipeline_final_status orcStage1Fails ("run1") inputWidget 5 9 (by decide)⟩

/-- Witness for `stage_skipped_iff`, instantiated at the absent image
agent of the concrete table. -/
theorem stage_skipped_iff_witness :
    (((executeStage agentsBadImage AgentType.imageGenerator inputWidget).1.status
        = StageStatus.skipped ↔
      (agentsBadImage AgentType.imageGenerator = none ∨
        ∃ a, agentsBadImage AgentType.imageGenerator = some a ∧
          a.config.enabled = false)) ∧
     ((executeStage agentsBadImage AgentType.imageGenerator inputWidget).1.status
        = StageStatus.skipped →
      (executeStage agentsBadImage AgentType.imageGenerator inputWidget).2.attempts = 0 ∧
      (executeStage agentsBadImage AgentType.imageGenerator inputWidget).2.inputValidations = 0 ∧
      (executeStage agentsBadImage AgentType.imageGenerator inputWidget).2.coreExecutions = 0 ∧
      (executeStage agentsBadImage AgentType.imageGenerator inputWidget).2.outputValidations = 0)) :=
  stage_skipped_iff agentsBadImage AgentType.imageGenerator inputWidget

end MAPS
